import Mathlib

set_option maxHeartbeats 1000000

/-!
Shallow embedding of the conversation-orchestration core of the
BOTFUNDACION repository:

* `matchKeywords`      — src/utils/keyword-matcher.js (string-typed rule sets)
* `matchKeywordsJ`     — same function over raw JS values, so that the
                         behaviour on malformed (numeric/object) rule entries
                         is captured, including the thrown TypeError
* conversation store   — src/services/conversation.service.js
                         (createConversation, updateConversationStatus,
                         incrementMessagesSent, getActiveConversation,
                         completeConversation, failConversation)
* orchestrator         — handleIncomingMessage of the two WhatsAppService
                         variants present in the repository
                         (whatsapp.service.js and the revised copy).

Machine- and I/O-level details are abstracted: timestamps are Nat ticks
(`NOW()` is a parameter), the database table is a list of records, and the
external collaborators (rate limiter, campaign resolver, dispatcher) are an
environment record, exactly the values the pipeline reads from them.
-/

/-- Characterwise lower-casing, JS `toLowerCase`. -/
def jsToLower (s : String) : String := ⟨s.data.map Char.toLower⟩

/-- JS `trim`: strip leading and trailing whitespace. -/
def jsTrim (s : String) : String :=
  ⟨((s.data.dropWhile Char.isWhitespace).reverse.dropWhile Char.isWhitespace).reverse⟩

/-- `messageText.toLowerCase().trim()`, the normalization the matcher applies. -/
def normText (s : String) : String := jsTrim (jsToLower s)

def isPrefixOfList : List Char → List Char → Bool
  | [], _ => true
  | _ :: _, [] => false
  | a :: as, b :: bs => a == b && isPrefixOfList as bs

def containsList (needle : List Char) : List Char → Bool
  | [] => needle.isEmpty
  | b :: bs => isPrefixOfList needle (b :: bs) || containsList needle bs

/-- JS `hay.includes(needle)` (substring containment) as an executable Bool. -/
def containsSub (hay needle : String) : Bool := containsList needle.data hay.data

def splitWsAux : List Char → List Char → List String
  | [], acc => [⟨acc.reverse⟩]
  | c :: rest, acc =>
    if c.isWhitespace then ⟨acc.reverse⟩ :: splitWsAux rest []
    else splitWsAux rest (c :: acc)

/-- JS `textLower.split(/\s+/).filter(t => t.length > 0)`. -/
def tokensOf (textLower : String) : List String :=
  (splitWsAux textLower.data []).filter (fun t => t ≠ "")

inductive MatchType
  | EXACT
  | KEYWORD
  | SYNONYM
deriving DecidableEq

/-- The `{matched, type}` object returned by `matchKeywords`. -/
structure MatchResult where
  matched : String
  type : MatchType
deriving DecidableEq

/-- The `triggerKeywords` JSON consumed by the matcher, in its well-formed
(string-typed) shape; an absent or non-array field of the JS object behaves
exactly like the empty list, which is how absence is modelled here. -/
structure TriggerKeywords where
  exact_matches : List String
  keywords : List String
  synonyms : List (String × List String)
  excluded_words : List String

/-- One excluded word hits: `textLower.includes(word.toLowerCase())`. -/
def exclHit (textLower : String) (word : String) : Bool :=
  containsSub textLower (jsToLower word)

/-- Keyword/synonym hit: `tokens.includes(sLower) || textLower.includes(sLower)`. -/
def tokenOrSub (textLower : String) (tokens : List String) (s : String) : Bool :=
  tokens.contains (jsToLower s) || containsSub textLower (jsToLower s)

/-- The synonyms loop of `matchKeywords`: first group with a hitting synonym
wins and the group key (`mainWord`) is reported as the matched value. -/
def synLoop (textLower : String) (tokens : List String) :
    List (String × List String) → Option MatchResult
  | [] => none
  | (mainWord, synonymList) :: rest =>
    if synonymList.any (tokenOrSub textLower tokens) then
      some ⟨mainWord, MatchType.SYNONYM⟩
    else synLoop textLower tokens rest

/-- `matchKeywords` of src/utils/keyword-matcher.js over string rule sets.
`!messageText` is the empty-string guard; the `!triggerKeywords` guard is
vacuous here because the rule set argument is a (non-null) structure. -/
def matchKeywords (messageText : String) (tk : TriggerKeywords) :
    Option MatchResult :=
  if messageText = "" then none
  else if tk.excluded_words.any (exclHit (normText messageText)) then none
  else
    match tk.exact_matches.find?
        (fun p => containsSub (normText messageText) (jsToLower p)) with
    | some p => some ⟨p, MatchType.EXACT⟩
    | none =>
      match tk.keywords.find?
          (tokenOrSub (normText messageText) (tokensOf (normText messageText))) with
      | some k => some ⟨k, MatchType.KEYWORD⟩
      | none =>
        synLoop (normText messageText) (tokensOf (normText messageText)) tk.synonyms

/-! ### The matcher over raw JS values (malformed rule entries) -/

/-- A rule-set entry as the JS code may actually receive it: a string, a
number, or some other object. -/
inductive JEntry
  | str (s : String)
  | num (n : Int)
  | obj
deriving DecidableEq

def JEntry.isMalformed : JEntry → Bool
  | .str _ => false
  | _ => true

/-- `value.toLowerCase()`: succeeds on strings, throws a TypeError on
numbers and plain objects. -/
def jToLower : JEntry → Except String String
  | .str s => .ok (jsToLower s)
  | _ => .error "TypeError: toLowerCase is not a function"

structure TriggerKeywordsJ where
  exact_matches : List JEntry
  keywords : List JEntry
  synonyms : List (String × List JEntry)
  excluded_words : List JEntry

/-- The excluded-words loop over raw entries; `.ok true` means an excluded
word was contained (the JS code returns null there). -/
def excludedLoopJ (textLower : String) : List JEntry → Except String Bool
  | [] => .ok false
  | w :: rest => do
    let wl ← jToLower w
    if containsSub textLower wl then pure true
    else excludedLoopJ textLower rest

def exactLoopJ (textLower : String) : List JEntry → Except String (Option MatchResult)
  | [] => .ok none
  | p :: rest => do
    let pl ← jToLower p
    if containsSub textLower pl then
      match p with
      | .str s => pure (some ⟨s, MatchType.EXACT⟩)
      | _ => pure none
    else exactLoopJ textLower rest

def kwLoopJ (textLower : String) (tokens : List String) :
    List JEntry → Except String (Option MatchResult)
  | [] => .ok none
  | k :: rest => do
    let kl ← jToLower k
    if tokens.contains kl || containsSub textLower kl then
      match k with
      | .str s => pure (some ⟨s, MatchType.KEYWORD⟩)
      | _ => pure none
    else kwLoopJ textLower tokens rest

def synInnerJ (textLower : String) (tokens : List String) (mainWord : String) :
    List JEntry → Except String (Option MatchResult)
  | [] => .ok none
  | s :: rest => do
    let sl ← jToLower s
    if tokens.contains sl || containsSub textLower sl then
      pure (some ⟨mainWord, MatchType.SYNONYM⟩)
    else synInnerJ textLower tokens mainWord rest

def synLoopJ (textLower : String) (tokens : List String) :
    List (String × List JEntry) → Except String (Option MatchResult)
  | [] => .ok none
  | (mainWord, synonymList) :: rest => do
    let r ← synInnerJ textLower tokens mainWord synonymList
    match r with
    | some m => pure (some m)
    | none => synLoopJ textLower tokens rest

/-- `matchKeywords` over raw JS rule entries: `.error e` models a thrown
TypeError escaping the function. -/
def matchKeywordsJ (messageText : String) (tk : TriggerKeywordsJ) :
    Except String (Option MatchResult) :=
  if messageText = "" then .ok none
  else do
    let excluded ← excludedLoopJ (normText messageText) tk.excluded_words
    if excluded then pure none
    else do
      let ex ← exactLoopJ (normText messageText) tk.exact_matches
      match ex with
      | some r => pure (some r)
      | none => do
        let kw ← kwLoopJ (normText messageText)
          (tokensOf (normText messageText)) tk.keywords
        match kw with
        | some r => pure (some r)
        | none =>
          synLoopJ (normText messageText) (tokensOf (normText messageText))
            tk.synonyms

/-! ### Conversation store (conversation.service.js) -/

inductive ConvStatus
  | INITIATED
  | IN_PROGRESS
  | COMPLETED
  | FAILED
  | CANCELLED
deriving DecidableEq

def ConvStatus.isTerminal : ConvStatus → Bool
  | .COMPLETED | .FAILED | .CANCELLED => true
  | _ => false

/-- One row of the `bot_conversations` table. `session_metadata` is the JSON
object as a key/value list (a value of `none` is JSON null). -/
structure Conversation where
  id : Nat
  user_phone : String
  user_name : String
  campaign_id : Nat
  trigger_message : String
  matched_keyword : String
  match_type : String
  status : ConvStatus
  messages_sent : Nat
  conversation_started_at : Nat
  conversation_ended_at : Option Nat
  last_message_sent_at : Option Nat
  updated_at : Option Nat
  session_metadata : List (String × Option String)
deriving DecidableEq

abbrev DB := List Conversation

/-- `SELECT ... WHERE id = ?`: the stored row with that id. -/
def lookupConv (cid : Nat) (db : DB) : Option Conversation :=
  db.find? (fun c => c.id = cid)

/-- `UPDATE bot_conversations SET ... WHERE id = ?`. -/
def updateConv (cid : Nat) (f : Conversation → Conversation) (db : DB) : DB :=
  db.map (fun c => if c.id = cid then f c else c)

/-- MySQL `JSON_SET(metadata, key, value)`: overwrite the key if present,
append it otherwise, keeping every other key. -/
def jsonSet (m : List (String × Option String)) (k : String) (v : Option String) :
    List (String × Option String) :=
  if m.any (fun p => p.1 = k) then
    m.map (fun p => if p.1 = k then (k, v) else p)
  else m ++ [(k, v)]

def maxId (db : DB) : Nat :=
  db.foldr (fun c m => max c.id m) 0

/-- The auto-increment id the insert will receive. -/
def newConversationId (db : DB) : Nat := maxId db + 1

/-- `createConversation`: INSERT with status `INITIATED`, start = NOW();
returns the insertId together with the new table state. -/
def createConversation (userPhone userName : String) (campaignId : Nat)
    (triggerMessage matchedKeyword matchType : String) (now : Nat) (db : DB) :
    Nat × DB :=
  let cid := newConversationId db
  (cid, db ++ [{
    id := cid
    user_phone := userPhone
    user_name := userName
    campaign_id := campaignId
    trigger_message := triggerMessage
    matched_keyword := matchedKeyword
    match_type := matchType
    status := ConvStatus.INITIATED
    messages_sent := 0
    conversation_started_at := now
    conversation_ended_at := none
    last_message_sent_at := none
    updated_at := none
    session_metadata := [] }])

def validStatuses : List String :=
  ["INITIATED", "IN_PROGRESS", "COMPLETED", "FAILED", "CANCELLED"]

def statusOfString (s : String) : Option ConvStatus :=
  if s = "INITIATED" then some ConvStatus.INITIATED
  else if s = "IN_PROGRESS" then some ConvStatus.IN_PROGRESS
  else if s = "COMPLETED" then some ConvStatus.COMPLETED
  else if s = "FAILED" then some ConvStatus.FAILED
  else if s = "CANCELLED" then some ConvStatus.CANCELLED
  else none

/-- The SQL `CASE WHEN ? IN ('COMPLETED','FAILED','CANCELLED')` test. -/
def terminalStatusStrings : List String := ["COMPLETED", "FAILED", "CANCELLED"]

/-- `updateConversationStatus`: validates the status string before touching
the table; an invalid value throws (`.error`) with the table untouched, a
terminal value additionally stamps `conversation_ended_at = NOW()`. -/
def updateConversationStatus (cid : Nat) (status : String) (now : Nat)
    (db : DB) : Except String DB :=
  if validStatuses.contains status then
    .ok (updateConv cid (fun c =>
      { c with
        status := (statusOfString status).getD c.status
        conversation_ended_at :=
          if terminalStatusStrings.contains status then some now
          else c.conversation_ended_at
        updated_at := some now }) db)
  else .error ("Estado inválido: " ++ status)

/-- `incrementMessagesSent`: counter += 1, stamps `last_message_sent_at`,
and sets status to `IN_PROGRESS` unconditionally (the SQL has no guard on
the current status). -/
def incrementMessagesSent (cid : Nat) (now : Nat) (db : DB) : DB :=
  updateConv cid (fun c =>
    { c with
      messages_sent := c.messages_sent + 1
      last_message_sent_at := some now
      status := ConvStatus.IN_PROGRESS
      updated_at := some now }) db

/-- `ORDER BY conversation_started_at DESC LIMIT 1` over a result list
(first listed row wins a timestamp tie, as the SQL order is unspecified
among ties). -/
def pickLatest : List Conversation → Option Conversation
  | [] => none
  | c :: rest =>
    match pickLatest rest with
    | none => some c
    | some d =>
      if d.conversation_started_at > c.conversation_started_at then some d
      else some c

/-- `getActiveConversation`: most recent row of this user whose status is
`INITIATED` or `IN_PROGRESS`, or none. -/
def getActiveConversation (userPhone : String) (db : DB) : Option Conversation :=
  pickLatest (db.filter (fun c =>
    c.user_phone = userPhone &&
      (c.status = ConvStatus.INITIATED || c.status = ConvStatus.IN_PROGRESS)))

/-- `completeConversation`: status := COMPLETED, end time := NOW(),
unconditionally (no check of the current status). -/
def completeConversation (cid : Nat) (now : Nat) (db : DB) : DB :=
  updateConv cid (fun c =>
    { c with
      status := ConvStatus.COMPLETED
      conversation_ended_at := some now
      updated_at := some now }) db

/-- `failConversation`: status := FAILED, end time := NOW(), and
`failure_reason` merged into the metadata, unconditionally. -/
def failConversation (cid : Nat) (reason : Option String) (now : Nat)
    (db : DB) : DB :=
  updateConv cid (fun c =>
    { c with
      status := ConvStatus.FAILED
      conversation_ended_at := some now
      updated_at := some now
      session_metadata := jsonSet c.session_metadata "failure_reason" reason }) db

/-! ### Orchestrator (handleIncomingMessage) -/

/-- The campaign match returned by `campaignService.detectCampaign`. -/
structure CampaignMatch where
  campaignId : Nat
  campaignName : String
  matchedKeyword : String
  matchType : String

/-- The `{sent, failed, total}` aggregate returned by
`messageService.sendSequentialMessages`. -/
structure DispatchResult where
  sent : Nat
  failed : Nat
  total : Nat

/-- The values the pipeline reads from its external collaborators for one
inbound event: the rate-limit decision, the campaign-resolver answer, the
campaign's template list, and the dispatcher's aggregate outcome. -/
structure PipelineEnv where
  rateAllowed : Bool
  rateReason : String
  campaignMatch : Option CampaignMatch
  campaignMessages : List String
  dispatchResult : DispatchResult

/-- One inbound WhatsApp message event. -/
structure InboundMsg where
  fromMe : Bool
  fromId : String
  body : String
  pushname : String

/-- The externally visible calls the pipeline makes, in order. -/
inductive BotAction
  | checkRate (phone : String)
  | reply (text : String)
  | recordUsage (phone : String)
  | create (cid : Nat)
  | dispatch (cid : Nat)
  | complete (cid : Nat)
  | fail (cid : Nat) (reason : Option String)
deriving DecidableEq

def iterN {α : Type} (f : α → α) : Nat → α → α
  | 0, a => a
  | n + 1, a => f (iterN f n a)

/-- PASO 4 through PASO 8 of `handleIncomingMessage`, identical in the two
service variants: record rate-limit usage, create the conversation, fail it
when the campaign has no messages, otherwise dispatch (each successful send
incrementing the counter via `incrementMessagesSent`) and reconcile
`{sent, failed, total}` into a terminal status. -/
def processAfterRateLimit (env : PipelineEnv) (msg : InboundMsg) (now : Nat)
    (db : DB) : List BotAction × DB :=
  match env.campaignMatch with
  | none => ([], db)
  | some cm =>
    let created := createConversation msg.fromId msg.pushname cm.campaignId
      msg.body cm.matchedKeyword cm.matchType now db
    let cid := created.1
    let db1 := created.2
    if env.campaignMessages.length = 0 then
      ([BotAction.recordUsage msg.fromId, BotAction.create cid,
        BotAction.fail cid (some "Sin mensajes configurados")],
       failConversation cid (some "Sin mensajes configurados") now db1)
    else
      let r := env.dispatchResult
      let db2 := iterN (incrementMessagesSent cid now) r.sent db1
      if r.sent = env.campaignMessages.length then
        ([BotAction.recordUsage msg.fromId, BotAction.create cid, BotAction.dispatch cid,
          BotAction.complete cid],
         completeConversation cid now db2)
      else if r.failed = env.campaignMessages.length then
        ([BotAction.recordUsage msg.fromId, BotAction.create cid, BotAction.dispatch cid,
          BotAction.fail cid (some "Todos los mensajes fallaron")],
         failConversation cid (some "Todos los mensajes fallaron") now db2)
      else
        ([BotAction.recordUsage msg.fromId, BotAction.create cid, BotAction.dispatch cid,
          BotAction.complete cid],
         completeConversation cid now db2)

namespace ServiceMain

/-- `getRateLimitMessage` of src/services/whatsapp.service.js: a static
reason-to-message map with a generic fallback for unmapped reasons. -/
def getRateLimitMessage (reason : String) : String :=
  if reason = "RATE_LIMIT_HOUR" then
    "🕐 Has consultado varias veces en la última hora. Por favor espera unos minutos antes de volver a intentar.\n\nPara atención inmediata contacta:\n📞 +51 987 654 321"
  else if reason = "RATE_LIMIT_DAY" then
    "📊 Has alcanzado el límite de consultas diarias. Mañana podrás volver a usar el bot.\n\nPara atención inmediata:\n📞 +51 987 654 321\n📧 contacto@inmobiliaria.com"
  else if reason = "BLOCKED_TEMPORARY" then
    "🚫 Tu número está temporalmente bloqueado. Por favor contacta a soporte."
  else if reason = "BLOCKED_PERMANENT" then
    "🚫 Tu número está en la lista de bloqueados. Contacta a soporte si crees que es un error."
  else "No puedes usar el bot en este momento. Contacta a soporte."

/-- `handleIncomingMessage` of src/services/whatsapp.service.js: on a
rate-limit deny it always replies with `getRateLimitMessage(reason)`. -/
def handleIncomingMessage (env : PipelineEnv) (msg : InboundMsg) (now : Nat)
    (db : DB) : List BotAction × DB :=
  if msg.fromMe then ([], db)
  else if containsSub msg.fromId "@g.us" then ([], db)
  else if jsTrim msg.body = "" then ([], db)
  else
    match getActiveConversation msg.fromId db with
    | some _ => ([], db)
    | none =>
      if env.rateAllowed then
        let res := processAfterRateLimit env msg now db
        (BotAction.checkRate msg.fromId :: res.1, res.2)
      else
        ([BotAction.checkRate msg.fromId,
          BotAction.reply (getRateLimitMessage env.rateReason)], db)

end ServiceMain

namespace ServiceAlt

/-- `getRateLimitMessage` of the revised service copy: only the two BLOCKED
reasons are mapped; any other reason yields no message (null), not an
error. This function is not called by this variant's pipeline. -/
def getRateLimitMessage (reason : String) : Option String :=
  if reason = "BLOCKED_TEMPORARY" then
    some "🚫 Tu número está temporalmente bloqueado. Por favor contacta a soporte."
  else if reason = "BLOCKED_PERMANENT" then
    some "🚫 Tu número está en la lista de bloqueados. Contacta a soporte si crees que es un error."
  else none

/-- `handleIncomingMessage` of the revised service copy: on a rate-limit
deny it logs and returns without replying to the user. -/
def handleIncomingMessage (env : PipelineEnv) (msg : InboundMsg) (now : Nat)
    (db : DB) : List BotAction × DB :=
  if msg.fromMe then ([], db)
  else if containsSub msg.fromId "@g.us" then ([], db)
  else if jsTrim msg.body = "" then ([], db)
  else
    match getActiveConversation msg.fromId db with
    | some _ => ([], db)
    | none =>
      if env.rateAllowed then
        let res := processAfterRateLimit env msg now db
        (BotAction.checkRate msg.fromId :: res.1, res.2)
      else
        ([BotAction.checkRate msg.fromId], db)

end ServiceAlt

/-! ### Concrete sample data used by witnesses and counterexamples -/

/-- Rule set used as the C6 counterexample: an empty exact-match phrase and
an empty keyword. -/
def tkDegenerate : TriggerKeywords :=
  { exact_matches := [""], keywords := [""], synonyms := [], excluded_words := [] }

/-- The §8 end-to-end rule set of the spec. -/
def tkSpec : TriggerKeywords :=
  { exact_matches := ["quiero alquilar"], keywords := ["alquiler"],
    synonyms := [], excluded_words := ["no quiero"] }

/-- A rule set whose match is decided by a synonym group. -/
def tkSyn : TriggerKeywords :=
  { exact_matches := [], keywords := [],
    synonyms := [("alquiler", ["renta"])], excluded_words := [] }

/-! ### Store lemmas -/

theorem lookupConv_updateConv (cid : Nat) (f : Conversation → Conversation)
    (hf : ∀ c, (f c).id = c.id) :
    ∀ db : DB, lookupConv cid (updateConv cid f db) = Option.map f (lookupConv cid db)
  | [] => rfl
  | c :: rest => by
    by_cases h : c.id = cid
    · simp only [updateConv, List.map_cons, if_pos h, lookupConv]
      rw [List.find?_cons_of_pos, List.find?_cons_of_pos]
      · simp
      · simp [h]
      · simp [hf, h]
    · simp only [updateConv, List.map_cons, if_neg h, lookupConv]
      rw [List.find?_cons_of_neg, List.find?_cons_of_neg]
      · exact lookupConv_updateConv cid f hf rest
      · simp [h]
      · simp [h]

theorem mem_le_maxId : ∀ {db : DB} {c : Conversation}, c ∈ db → c.id ≤ maxId db := by
  intro db
  induction db with
  | nil => intro c h; cases h
  | cons d rest ih =>
    intro c h
    rcases List.mem_cons.mp h with h | h
    · subst h; exact le_max_left _ _
    · exact le_trans (ih h) (le_max_right _ _)

theorem lookupConv_append_fresh :
    ∀ (db : DB) (rec : Conversation), (∀ c ∈ db, c.id ≠ rec.id) →
      lookupConv rec.id (db ++ [rec]) = some rec
  | [], rec, _ => by simp [lookupConv]
  | c :: rest, rec, h => by
    have hc : c.id ≠ rec.id := h c (List.mem_cons_self c rest)
    simp only [List.cons_append, lookupConv]
    rw [List.find?_cons_of_neg]
    · exact lookupConv_append_fresh rest rec
        (fun d hd => h d (List.mem_cons_of_mem c hd))
    · simp [hc]

theorem lookupConv_create_isSome (userPhone userName : String) (campaignId : Nat)
    (tm mk mt : String) (now : Nat) (db : DB) :
    (lookupConv (newConversationId db)
      (createConversation userPhone userName campaignId tm mk mt now db).2).isSome := by
  have h := lookupConv_append_fresh db
    { id := newConversationId db, user_phone := userPhone, user_name := userName
      campaign_id := campaignId, trigger_message := tm, matched_keyword := mk
      match_type := mt, status := ConvStatus.INITIATED, messages_sent := 0
      conversation_started_at := now, conversation_ended_at := none
      last_message_sent_at := none, updated_at := none, session_metadata := [] }
    (by
      intro c hc hid
      have := mem_le_maxId hc
      simp only [newConversationId] at hid
      omega)
  simp only [createConversation]
  rw [h]
  rfl

theorem lookupConv_complete (cid now : Nat) (db : DB) :
    lookupConv cid (completeConversation cid now db) =
      Option.map (fun c => { c with
        status := ConvStatus.COMPLETED
        conversation_ended_at := some now
        updated_at := some now })
        (lookupConv cid db) := by
  unfold completeConversation
  apply lookupConv_updateConv
  intro c
  rfl

theorem lookupConv_fail (cid now : Nat) (reason : Option String) (db : DB) :
    lookupConv cid (failConversation cid reason now db) =
      Option.map (fun c => { c with
        status := ConvStatus.FAILED
        conversation_ended_at := some now
        updated_at := some now
        session_metadata := jsonSet c.session_metadata "failure_reason" reason })
        (lookupConv cid db) := by
  unfold failConversation
  apply lookupConv_updateConv
  intro c
  rfl

theorem lookupConv_incr (cid now : Nat) (db : DB) :
    lookupConv cid (incrementMessagesSent cid now db) =
      Option.map (fun c => { c with
        messages_sent := c.messages_sent + 1
        last_message_sent_at := some now
        status := ConvStatus.IN_PROGRESS
        updated_at := some now })
        (lookupConv cid db) := by
  unfold incrementMessagesSent
  apply lookupConv_updateConv
  intro c
  rfl

theorem lookup_iter_incr_isSome (cid now : Nat) (db : DB)
    (h : (lookupConv cid db).isSome) :
    ∀ n, (lookupConv cid (iterN (incrementMessagesSent cid now) n db)).isSome := by
  intro n
  induction n with
  | zero => exact h
  | succ k ih =>
    rw [iterN, lookupConv_incr]
    simpa using ih

/-! ### Matcher theorems -/

/-- C3: exclusion short-circuit — whenever the lower-cased trimmed message
text contains an excluded phrase as a substring, `matchKeywords` returns
no-match, whatever else (exact phrases, keywords, synonyms) the rule set
holds or the text contains. -/
theorem matchKeywords_excluded_none (text : String) (tk : TriggerKeywords)
    (w : String) (hw : w ∈ tk.excluded_words)
    (hc : containsSub (normText text) (jsToLower w) = true) :
    matchKeywords text tk = none := by
  unfold matchKeywords
  by_cases h0 : text = ""
  · simp [h0]
  · have hany : tk.excluded_words.any (exclHit (normText text)) = true :=
      List.any_eq_true.mpr ⟨w, hw, hc⟩
    simp [h0, hany]

/-- C3 witness: the spec's own §8 scenario — "no quiero alquilar nada"
contains the excluded phrase "no quiero", so the rule set with exact phrase
"quiero alquilar" (also contained) yields no match. -/
theorem matchKeywords_excluded_none_witness :
    ("no quiero" ∈ tkSpec.excluded_words ∧
      containsSub (normText "no quiero alquilar nada") (jsToLower "no quiero") = true) ∧
    matchKeywords "no quiero alquilar nada" tkSpec = none :=
  ⟨⟨by simp [tkSpec], by decide⟩,
    matchKeywords_excluded_none "no quiero alquilar nada" tkSpec "no quiero"
      (by simp [tkSpec]) (by decide)⟩

/-- C6 counterexample: for the empty message text and a rule set whose
exact-match list and keyword list both hold the empty phrase, the
normalized text contains an exact-match phrase (and a keyword, and no
excluded phrase), yet `matchKeywords` returns none — the empty-text guard
fires before the exact-match tier, so the claim fails as stated for the
empty message text. -/
theorem exact_precedence_empty_counterexample :
    ("" ∈ tkDegenerate.exact_matches ∧
      containsSub (normText "") (jsToLower "") = true ∧
      "" ∈ tkDegenerate.keywords ∧
      tkDegenerate.excluded_words = []) ∧
    matchKeywords "" tkDegenerate = none :=
  ⟨⟨by simp [tkDegenerate], by decide, by simp [tkDegenerate], rfl⟩, rfl⟩

/-- C6 (amended): for every NON-EMPTY message text whose normalized form
contains no excluded phrase, if it contains an exact-match phrase and a
standalone keyword of the rule set, `matchKeywords` returns an exact-match
phrase with type EXACT — never KEYWORD or SYNONYM. -/
theorem exact_precedence (text : String) (tk : TriggerKeywords)
    (hne : text ≠ "")
    (hexcl : tk.excluded_words.any (exclHit (normText text)) = false)
    (p : String) (hp : p ∈ tk.exact_matches)
    (hpc : containsSub (normText text) (jsToLower p) = true)
    (k : String) (hk : k ∈ tk.keywords)
    (hkc : tokenOrSub (normText text) (tokensOf (normText text)) k = true) :
    ∃ q ∈ tk.exact_matches, matchKeywords text tk = some ⟨q, MatchType.EXACT⟩ := by
  have hfind : (tk.exact_matches.find?
      (fun q => containsSub (normText text) (jsToLower q))).isSome :=
    List.find?_isSome.mpr ⟨p, hp, hpc⟩
  obtain ⟨q, hq⟩ := Option.isSome_iff_exists.mp hfind
  refine ⟨q, List.mem_of_find?_eq_some hq, ?_⟩
  unfold matchKeywords
  simp [hne, hexcl, hq]

/-- C6 witness: "quiero alquilar un alquiler" contains both the exact
phrase "quiero alquilar" and the standalone keyword "alquiler"; the result
is the exact phrase with type EXACT, not the keyword. -/
theorem exact_precedence_witness :
    (∃ q ∈ tkSpec.exact_matches,
      matchKeywords "quiero alquilar un alquiler" tkSpec =
        some ⟨q, MatchType.EXACT⟩) ∧
    matchKeywords "quiero alquilar un alquiler" tkSpec =
      some ⟨"quiero alquilar", MatchType.EXACT⟩ :=
  ⟨exact_precedence "quiero alquilar un alquiler" tkSpec (by decide) (by decide)
      "quiero alquilar" (by simp [tkSpec]) (by decide)
      "alquiler" (by simp [tkSpec]) (by decide),
    by decide⟩

theorem synLoop_some (tl : String) (tokens : List String) :
    ∀ (groups : List (String × List String)) (m : String) (ty : MatchType),
      synLoop tl tokens groups = some ⟨m, ty⟩ →
      ty = MatchType.SYNONYM ∧
        ∃ syns, (m, syns) ∈ groups ∧ ∃ s ∈ syns, tokenOrSub tl tokens s = true := by
  intro groups
  induction groups with
  | nil => intro m ty h; simp [synLoop] at h
  | cons g rest ih =>
    obtain ⟨mw, sl⟩ := g
    intro m ty h
    by_cases hh : sl.any (tokenOrSub tl tokens) = true
    · rw [synLoop, if_pos hh] at h
      obtain ⟨rfl, rfl⟩ : mw = m ∧ MatchType.SYNONYM = ty := by
        simpa [MatchResult.mk.injEq] using h
      exact ⟨rfl, sl, List.mem_cons_self _ _, List.any_eq_true.mp hh⟩
    · rw [synLoop, if_neg hh] at h
      obtain ⟨hty, syns, hmem, hs⟩ := ih m ty h
      exact ⟨hty, syns, List.mem_cons_of_mem _ hmem, hs⟩

/-- C7: synonym canonicalization — whenever `matchKeywords` decides a match
through the synonym tier (result type SYNONYM), the matched value is the
canonical word of a synonym group one of whose synonyms hit the text; the
literal synonym token is never the reported value. -/
theorem synonym_reports_canonical (text : String) (tk : TriggerKeywords)
    (m : String)
    (h : matchKeywords text tk = some ⟨m, MatchType.SYNONYM⟩) :
    ∃ syns, (m, syns) ∈ tk.synonyms ∧
      ∃ s ∈ syns,
        tokenOrSub (normText text) (tokensOf (normText text)) s = true := by
  unfold matchKeywords at h
  by_cases h0 : text = ""
  · simp [h0] at h
  · rw [if_neg h0] at h
    by_cases hexcl : tk.excluded_words.any (exclHit (normText text)) = true
    · simp [hexcl] at h
    · rw [if_neg hexcl] at h
      cases hfind : tk.exact_matches.find?
          (fun p => containsSub (normText text) (jsToLower p)) with
      | some p => rw [hfind] at h; simp at h
      | none =>
        rw [hfind] at h
        cases hkw : tk.keywords.find?
            (tokenOrSub (normText text) (tokensOf (normText text))) with
        | some k => rw [hkw] at h; simp at h
        | none =>
          rw [hkw] at h
          exact (synLoop_some _ _ tk.synonyms m MatchType.SYNONYM h).2

/-- C7 witness: "renta barata" hits the synonym "renta" of the group keyed
by "alquiler"; the matched value is the canonical word "alquiler". -/
theorem synonym_reports_canonical_witness :
    matchKeywords "renta barata" tkSyn = some ⟨"alquiler", MatchType.SYNONYM⟩ ∧
    ∃ syns, ("alquiler", syns) ∈ tkSyn.synonyms ∧
      ∃ s ∈ syns,
        tokenOrSub (normText "renta barata")
          (tokensOf (normText "renta barata")) s = true :=
  ⟨by decide, synonym_reports_canonical "renta barata" tkSyn "alquiler" (by decide)⟩

/-- C8 counterexample: a numeric entry in `excluded_words` makes
`matchKeywords` throw a TypeError (`word.toLowerCase` is not a function)
instead of being skipped — with the malformed entry removed the same call
returns cleanly. -/
theorem malformed_entry_throws_counterexample :
    matchKeywordsJ "hola"
      { exact_matches := [], keywords := [], synonyms := [],
        excluded_words := [JEntry.num 42] } =
      Except.error "TypeError: toLowerCase is not a function" ∧
    matchKeywordsJ "hola"
      { exact_matches := [], keywords := [], synonyms := [],
        excluded_words := [] } = Except.ok none := by
  exact ⟨rfl, rfl⟩

theorem excludedLoopJ_reach_error (tl : String) :
    ∀ (ws : List String), (∀ s ∈ ws, containsSub tl (jsToLower s) = false) →
      ∀ (e : JEntry), e.isMalformed = true → ∀ rest,
        excludedLoopJ tl ((ws.map JEntry.str) ++ e :: rest) =
          Except.error "TypeError: toLowerCase is not a function" := by
  intro ws
  induction ws with
  | nil =>
    intro _ e he rest
    cases e with
    | str s => simp [JEntry.isMalformed] at he
    | num n => rfl
    | obj => rfl
  | cons w ws ih =>
    intro hws e he rest
    have hw : containsSub tl (jsToLower w) = false :=
      hws w (List.mem_cons_self w ws)
    have step : excludedLoopJ tl ((List.map JEntry.str (w :: ws)) ++ e :: rest) =
        (if containsSub tl (jsToLower w) = true then pure true
         else excludedLoopJ tl ((List.map JEntry.str ws) ++ e :: rest)) := rfl
    rw [step, hw]
    simp only [Bool.false_eq_true, if_false]
    exact ih (fun s hs => hws s (List.mem_cons_of_mem w hs)) e he rest

/-- C8 (amended): `matchKeywords` is not total over malformed rule
entries — a numeric or object entry is not skipped; whenever evaluation
reaches one (here: every earlier excluded-words entry is a non-matching
string), the function throws a TypeError instead of continuing. -/
theorem malformed_entry_not_skipped (text : String) (hne : text ≠ "")
    (ws : List String)
    (hws : ∀ s ∈ ws, containsSub (normText text) (jsToLower s) = false)
    (e : JEntry) (he : e.isMalformed = true) (rest : List JEntry)
    (em kws : List JEntry) (syns : List (String × List JEntry)) :
    matchKeywordsJ text
      { exact_matches := em, keywords := kws, synonyms := syns,
        excluded_words := (ws.map JEntry.str) ++ e :: rest } =
      Except.error "TypeError: toLowerCase is not a function" := by
  have hloop := excludedLoopJ_reach_error (normText text) ws hws e he rest
  unfold matchKeywordsJ
  rw [if_neg hne]
  simp only [hloop]
  rfl

/-- C8 witness for the amended claim: the malformed entry sits behind a
non-matching string entry and is reached, so the call throws. -/
theorem malformed_entry_not_skipped_witness :
    matchKeywordsJ "hola"
      { exact_matches := [], keywords := [], synonyms := [],
        excluded_words := [JEntry.str "x", JEntry.num 7] } =
      Except.error "TypeError: toLowerCase is not a function" :=
  malformed_entry_not_skipped "hola" (by decide) ["x"] (by decide)
    (JEntry.num 7) rfl [] [] [] []

/-! ### Store theorems (C4, C5, C10) -/

/-- A conversation already COMPLETED, as stored. -/
def convDone : Conversation :=
  { id := 1, user_phone := "51999111222@c.us", user_name := "Ana"
    campaign_id := 4, trigger_message := "hola", matched_keyword := "hola"
    match_type := "KEYWORD", status := ConvStatus.COMPLETED, messages_sent := 7
    conversation_started_at := 1, conversation_ended_at := some 3
    last_message_sent_at := some 2, updated_at := some 3, session_metadata := [] }

/-- C4 counterexample: `incrementMessagesSent` on a conversation whose
status is terminal (COMPLETED) moves the status to IN_PROGRESS — the SQL
sets `status = 'IN_PROGRESS'` unconditionally, so a terminal conversation's
status is NOT left unchanged as the claim states. -/
theorem incrementSent_terminal_counterexample :
    Option.map Conversation.status (lookupConv 1 [convDone]) =
      some ConvStatus.COMPLETED ∧
    Option.map Conversation.status
        (lookupConv 1 (incrementMessagesSent 1 9 [convDone])) =
      some ConvStatus.IN_PROGRESS := by
  exact ⟨rfl, rfl⟩

/-- C4 (amended): every call of `incrementMessagesSent` increments
`messages_sent` by exactly one (N calls yield a counter of exactly
`old + N`), stamps `last_message_sent_at`, and sets the status to
IN_PROGRESS unconditionally — including for conversations already in a
terminal status. -/
theorem incrementSent_postcondition (cid now : Nat) (db : DB)
    (c : Conversation) (hc : lookupConv cid db = some c) :
    ∀ n, 1 ≤ n →
      lookupConv cid (iterN (incrementMessagesSent cid now) n db) =
        some { c with
          messages_sent := c.messages_sent + n
          last_message_sent_at := some now
          status := ConvStatus.IN_PROGRESS
          updated_at := some now } := by
  intro n hn
  induction n with
  | zero => omega
  | succ k ih =>
    cases Nat.eq_zero_or_pos k with
    | inl hk =>
      subst hk
      simp only [iterN, lookupConv_incr, hc]
      rfl
    | inr hk =>
      rw [iterN, lookupConv_incr, ih hk]
      simp only [Option.map_some']
      congr 1

/-- C4 witness: two increments on the stored COMPLETED conversation give a
counter of 7 + 2 and status IN_PROGRESS. -/
theorem incrementSent_postcondition_witness :
    lookupConv 1 (iterN (incrementMessagesSent 1 9) 2 [convDone]) =
      some { convDone with
        messages_sent := convDone.messages_sent + 2
        last_message_sent_at := some 9
        status := ConvStatus.IN_PROGRESS
        updated_at := some 9 } :=
  incrementSent_postcondition 1 9 [convDone] convDone rfl 2 (by decide)

/-- C5: `updateConversationStatus` rejects any status string outside the
five recognized values with a validation error before touching the stored
record (the `.error` result carries no updated table — nothing is written),
and for every recognized terminal value it stamps the end time. -/
theorem setStatus_validation (cid now : Nat) (db : DB) :
    (∀ s, validStatuses.contains s = false →
      updateConversationStatus cid s now db =
        Except.error ("Estado inválido: " ++ s)) ∧
    (∀ s c, s ∈ terminalStatusStrings → lookupConv cid db = some c →
      ∃ st db2, statusOfString s = some st ∧ st.isTerminal = true ∧
        updateConversationStatus cid s now db = Except.ok db2 ∧
        lookupConv cid db2 = some { c with
          status := st
          conversation_ended_at := some now
          updated_at := some now }) := by
  constructor
  · intro s hs
    have h : ¬ (validStatuses.contains s = true) := by simpa using hs
    unfold updateConversationStatus
    rw [if_neg h]
  · intro s c hs hc
    have hs3 : s = "COMPLETED" ∨ s = "FAILED" ∨ s = "CANCELLED" := by
      simpa [terminalStatusStrings] using hs
    rcases hs3 with rfl | rfl | rfl
    · refine ⟨ConvStatus.COMPLETED, _, rfl, rfl, rfl, ?_⟩
      rw [lookupConv_updateConv, hc]
      · rfl
      · intro x
        rfl
    · refine ⟨ConvStatus.FAILED, _, rfl, rfl, rfl, ?_⟩
      rw [lookupConv_updateConv, hc]
      · rfl
      · intro x
        rfl
    · refine ⟨ConvStatus.CANCELLED, _, rfl, rfl, rfl, ?_⟩
      rw [lookupConv_updateConv, hc]
      · rfl
      · intro x
        rfl

/-- C5 witness: the unrecognized value "DONE" is rejected with the
validation error and "FAILED" stamps the end time on the stored record. -/
theorem setStatus_validation_witness :
    updateConversationStatus 1 "DONE" 9 [convDone] =
      Except.error ("Estado inválido: " ++ "DONE") ∧
    ∃ st db2, statusOfString "FAILED" = some st ∧ st.isTerminal = true ∧
      updateConversationStatus 1 "FAILED" 9 [convDone] = Except.ok db2 ∧
      lookupConv 1 db2 = some { convDone with
        status := st
        conversation_ended_at := some 9
        updated_at := some 9 } :=
  ⟨(setStatus_validation 1 9 [convDone]).1 "DONE" (by decide),
    (setStatus_validation 1 9 [convDone]).2 "FAILED" convDone (by decide) rfl⟩

/-- C10: terminal statuses are not absorbing in the store —
`completeConversation` and `failConversation` overwrite the status and
re-stamp the end timestamp of the stored record unconditionally, with no
check of the current status (the record `c` below may already be terminal,
with an already-set end time, and is overwritten all the same). -/
theorem terminal_not_absorbing (cid now : Nat) (reason : Option String)
    (db : DB) (c : Conversation) (hc : lookupConv cid db = some c) :
    lookupConv cid (completeConversation cid now db) =
      some { c with
        status := ConvStatus.COMPLETED
        conversation_ended_at := some now
        updated_at := some now } ∧
    lookupConv cid (failConversation cid reason now db) =
      some { c with
        status := ConvStatus.FAILED
        conversation_ended_at := some now
        updated_at := some now
        session_metadata := jsonSet c.session_metadata "failure_reason" reason } := by
  constructor
  · rw [lookupConv_complete, hc]; rfl
  · rw [lookupConv_fail, hc]; rfl

/-- C10 witness: the stored conversation is already COMPLETED with end time
3; `failConversation` at time 9 moves it to FAILED and overwrites the end
time with 9. -/
theorem terminal_not_absorbing_witness :
    lookupConv 1 (failConversation 1 (some "late failure") 9 [convDone]) =
      some { convDone with
        status := ConvStatus.FAILED
        conversation_ended_at := some 9
        updated_at := some 9
        session_metadata :=
          jsonSet convDone.session_metadata "failure_reason" (some "late failure") } :=
  (terminal_not_absorbing 1 9 (some "late failure") [convDone] convDone rfl).2

/-! ### Orchestrator theorems (C1, C2, C9) -/

theorem pickLatest_mem :
    ∀ (l : List Conversation) (c : Conversation), pickLatest l = some c → c ∈ l := by
  intro l
  induction l with
  | nil => intro c h; simp [pickLatest] at h
  | cons d rest ih =>
    intro c h
    rw [pickLatest] at h
    cases hrest : pickLatest rest with
    | none =>
      rw [hrest] at h
      exact (Option.some.injEq .. ▸ h : d = c) ▸ List.mem_cons_self d rest
    | some e =>
      rw [hrest] at h
      dsimp only at h
      by_cases hcmp : e.conversation_started_at > d.conversation_started_at
      · rw [if_pos hcmp] at h
        have : e = c := by simpa using h
        exact this ▸ List.mem_cons_of_mem d (ih e hrest)
      · rw [if_neg hcmp] at h
        have : d = c := by simpa using h
        exact this ▸ List.mem_cons_self d rest

theorem getActiveConversation_status (userPhone : String) (db : DB)
    (c : Conversation) (h : getActiveConversation userPhone db = some c) :
    c.user_phone = userPhone ∧
      (c.status = ConvStatus.INITIATED ∨ c.status = ConvStatus.IN_PROGRESS) := by
  unfold getActiveConversation at h
  have hmem := pickLatest_mem _ _ h
  have hp := List.of_mem_filter hmem
  simpa using hp

/-- C2: dedup guard — whenever `getActiveConversation` returns a
conversation for the sender (necessarily of status INITIATED or
IN_PROGRESS), both service variants discard the inbound message with no
externally visible action (no rate-limit check, no usage recording, no
conversation creation, no dispatch, no reply) and the store unchanged. -/
theorem dedup_discards_silently (env : PipelineEnv) (msg : InboundMsg)
    (now : Nat) (db : DB) (c : Conversation)
    (h : getActiveConversation msg.fromId db = some c) :
    (c.status = ConvStatus.INITIATED ∨ c.status = ConvStatus.IN_PROGRESS) ∧
    ServiceMain.handleIncomingMessage env msg now db = ([], db) ∧
    ServiceAlt.handleIncomingMessage env msg now db = ([], db) := by
  refine ⟨(getActiveConversation_status _ _ _ h).2, ?_, ?_⟩
  · unfold ServiceMain.handleIncomingMessage
    rw [h]
    split
    · rfl
    · split
      · rfl
      · split
        · rfl
        · rfl
  · unfold ServiceAlt.handleIncomingMessage
    rw [h]
    split
    · rfl
    · split
      · rfl
      · split
        · rfl
        · rfl

/-- An INITIATED conversation as stored for the dedup witness. -/
def convActive : Conversation :=
  { id := 2, user_phone := "51988777666@c.us", user_name := "Luis"
    campaign_id := 4, trigger_message := "info", matched_keyword := "info"
    match_type := "KEYWORD", status := ConvStatus.INITIATED, messages_sent := 0
    conversation_started_at := 5, conversation_ended_at := none
    last_message_sent_at := none, updated_at := none, session_metadata := [] }

/-- An inbound message from the user that already has `convActive`. -/
def msgSecond : InboundMsg :=
  { fromMe := false, fromId := "51988777666@c.us", body := "quiero info"
    pushname := "Luis" }

/-- An environment in which everything downstream would succeed, showing
that the dedup exit alone stops the pipeline. -/
def cmInfo : CampaignMatch :=
  { campaignId := 4, campaignName := "Campaña", matchedKeyword := "info"
    matchType := "KEYWORD" }

def envOpen : PipelineEnv :=
  { rateAllowed := true, rateReason := "", campaignMatch := some cmInfo
    campaignMessages := ["Hola"]
    dispatchResult := { sent := 1, failed := 0, total := 1 } }

/-- C2 witness: with an INITIATED conversation stored for the sender, a
second message produces no action and leaves the store unchanged in both
variants. -/
theorem dedup_discards_silently_witness :
    (convActive.status = ConvStatus.INITIATED ∨
      convActive.status = ConvStatus.IN_PROGRESS) ∧
    ServiceMain.handleIncomingMessage envOpen msgSecond 6 [convActive] =
      ([], [convActive]) ∧
    ServiceAlt.handleIncomingMessage envOpen msgSecond 6 [convActive] =
      ([], [convActive]) :=
  dedup_discards_silently envOpen msgSecond 6 [convActive] convActive (by decide)

theorem createConversation_fst (userPhone userName : String) (campaignId : Nat)
    (tm mk mt : String) (now : Nat) (db : DB) :
    (createConversation userPhone userName campaignId tm mk mt now db).1 =
      newConversationId db := rfl

theorem handleMain_allowed (env : PipelineEnv) (msg : InboundMsg) (now : Nat)
    (db : DB) (h1 : msg.fromMe = false)
    (h2 : containsSub msg.fromId "@g.us" = false)
    (h3 : ¬ jsTrim msg.body = "")
    (h4 : getActiveConversation msg.fromId db = none)
    (h5 : env.rateAllowed = true) :
    ServiceMain.handleIncomingMessage env msg now db =
      (BotAction.checkRate msg.fromId :: (processAfterRateLimit env msg now db).1,
       (processAfterRateLimit env msg now db).2) := by
  unfold ServiceMain.handleIncomingMessage
  simp [h1, h2, h3, h4, h5]

theorem handleAlt_allowed (env : PipelineEnv) (msg : InboundMsg) (now : Nat)
    (db : DB) (h1 : msg.fromMe = false)
    (h2 : containsSub msg.fromId "@g.us" = false)
    (h3 : ¬ jsTrim msg.body = "")
    (h4 : getActiveConversation msg.fromId db = none)
    (h5 : env.rateAllowed = true) :
    ServiceAlt.handleIncomingMessage env msg now db =
      (BotAction.checkRate msg.fromId :: (processAfterRateLimit env msg now db).1,
       (processAfterRateLimit env msg now db).2) := by
  unfold ServiceAlt.handleIncomingMessage
  simp [h1, h2, h3, h4, h5]

/-- C1: reconciliation after dispatch — once the pipeline reaches dispatch
over a non-empty template list (with a consistent dispatcher outcome,
`sent + failed = total` and `total` the template count), the orchestrator
calls complete and the conversation ends COMPLETED when `sent = total`;
calls fail with reason "Todos los mensajes fallaron" and the conversation
ends FAILED when `failed = total`; and in every other (partial) case calls
complete and the conversation ends COMPLETED — there is no partial-failure
state.  Both service variants behave identically here. -/
theorem dispatch_reconciliation (env : PipelineEnv) (msg : InboundMsg)
    (now : Nat) (db : DB) (h1 : msg.fromMe = false)
    (h2 : containsSub msg.fromId "@g.us" = false)
    (h3 : ¬ jsTrim msg.body = "")
    (h4 : getActiveConversation msg.fromId db = none)
    (h5 : env.rateAllowed = true)
    (cm : CampaignMatch) (h6 : env.campaignMatch = some cm)
    (h7 : env.campaignMessages ≠ [])
    (h8 : env.dispatchResult.total = env.campaignMessages.length)
    (h9 : env.dispatchResult.sent + env.dispatchResult.failed =
      env.dispatchResult.total) :
    (env.dispatchResult.sent = env.dispatchResult.total →
      BotAction.complete (newConversationId db) ∈
        (ServiceMain.handleIncomingMessage env msg now db).1 ∧
      ∃ c, lookupConv (newConversationId db)
          (ServiceMain.handleIncomingMessage env msg now db).2 = some c ∧
        c.status = ConvStatus.COMPLETED) ∧
    (env.dispatchResult.failed = env.dispatchResult.total →
      BotAction.fail (newConversationId db) (some "Todos los mensajes fallaron") ∈
        (ServiceMain.handleIncomingMessage env msg now db).1 ∧
      ∃ c, lookupConv (newConversationId db)
          (ServiceMain.handleIncomingMessage env msg now db).2 = some c ∧
        c.status = ConvStatus.FAILED) ∧
    (env.dispatchResult.sent ≠ env.dispatchResult.total →
      env.dispatchResult.failed ≠ env.dispatchResult.total →
      BotAction.complete (newConversationId db) ∈
        (ServiceMain.handleIncomingMessage env msg now db).1 ∧
      ∃ c, lookupConv (newConversationId db)
          (ServiceMain.handleIncomingMessage env msg now db).2 = some c ∧
        c.status = ConvStatus.COMPLETED) ∧
    ServiceAlt.handleIncomingMessage env msg now db =
      ServiceMain.handleIncomingMessage env msg now db := by
  have hm := handleMain_allowed env msg now db h1 h2 h3 h4 h5
  have ha := handleAlt_allowed env msg now db h1 h2 h3 h4 h5
  have hlen : ¬ env.campaignMessages.length = 0 := by
    simpa [List.length_eq_zero] using h7
  have hsome1 : (lookupConv (newConversationId db)
      (createConversation msg.fromId msg.pushname cm.campaignId msg.body
        cm.matchedKeyword cm.matchType now db).2).isSome :=
    lookupConv_create_isSome msg.fromId msg.pushname cm.campaignId msg.body
      cm.matchedKeyword cm.matchType now db
  have hsome2 := lookup_iter_incr_isSome (newConversationId db) now _ hsome1
    env.dispatchResult.sent
  obtain ⟨c2, hc2⟩ := Option.isSome_iff_exists.mp hsome2
  refine ⟨?_, ?_, ?_, by rw [hm, ha]⟩
  · intro hs
    have hs' : env.dispatchResult.sent = env.campaignMessages.length := by
      rw [hs, h8]
    have hp : processAfterRateLimit env msg now db =
        ([BotAction.recordUsage msg.fromId,
          BotAction.create (newConversationId db),
          BotAction.dispatch (newConversationId db),
          BotAction.complete (newConversationId db)],
         completeConversation (newConversationId db) now
           (iterN (incrementMessagesSent (newConversationId db) now)
             env.dispatchResult.sent
             (createConversation msg.fromId msg.pushname cm.campaignId msg.body
               cm.matchedKeyword cm.matchType now db).2)) := by
      unfold processAfterRateLimit
      rw [h6]
      simp only [createConversation_fst, if_neg hlen, if_pos hs']
    rw [hm, hp]
    refine ⟨by simp, ?_⟩
    refine ⟨{ c2 with status := ConvStatus.COMPLETED, conversation_ended_at := some now, updated_at := some now }, ?_, rfl⟩
    show lookupConv (newConversationId db) (completeConversation _ now _) = _
    rw [lookupConv_complete, hc2]
    rfl
  · intro hf
    have hs' : ¬ env.dispatchResult.sent = env.campaignMessages.length := by
      omega
    have hf' : env.dispatchResult.failed = env.campaignMessages.length := by
      rw [hf, h8]
    have hp : processAfterRateLimit env msg now db =
        ([BotAction.recordUsage msg.fromId,
          BotAction.create (newConversationId db),
          BotAction.dispatch (newConversationId db),
          BotAction.fail (newConversationId db)
            (some "Todos los mensajes fallaron")],
         failConversation (newConversationId db)
           (some "Todos los mensajes fallaron") now
           (iterN (incrementMessagesSent (newConversationId db) now)
             env.dispatchResult.sent
             (createConversation msg.fromId msg.pushname cm.campaignId msg.body
               cm.matchedKeyword cm.matchType now db).2)) := by
      unfold processAfterRateLimit
      rw [h6]
      simp only [createConversation_fst, if_neg hlen, if_neg hs', if_pos hf']
    rw [hm, hp]
    refine ⟨by simp, ?_⟩
    refine ⟨{ c2 with status := ConvStatus.FAILED, conversation_ended_at := some now, updated_at := some now, session_metadata := jsonSet c2.session_metadata "failure_reason" (some "Todos los mensajes fallaron") }, ?_, rfl⟩
    show lookupConv (newConversationId db) (failConversation _ _ now _) = _
    rw [lookupConv_fail, hc2]
    rfl
  · intro hs hf
    have hs' : ¬ env.dispatchResult.sent = env.campaignMessages.length := by
      rw [← h8]; exact hs
    have hf' : ¬ env.dispatchResult.failed = env.campaignMessages.length := by
      rw [← h8]; exact hf
    have hp : processAfterRateLimit env msg now db =
        ([BotAction.recordUsage msg.fromId,
          BotAction.create (newConversationId db),
          BotAction.dispatch (newConversationId db),
          BotAction.complete (newConversationId db)],
         completeConversation (newConversationId db) now
           (iterN (incrementMessagesSent (newConversationId db) now)
             env.dispatchResult.sent
             (createConversation msg.fromId msg.pushname cm.campaignId msg.body
               cm.matchedKeyword cm.matchType now db).2)) := by
      unfold processAfterRateLimit
      rw [h6]
      simp only [createConversation_fst, if_neg hlen, if_neg hs', if_neg hf']
    rw [hm, hp]
    refine ⟨by simp, ?_⟩
    refine ⟨{ c2 with status := ConvStatus.COMPLETED, conversation_ended_at := some now, updated_at := some now }, ?_, rfl⟩
    show lookupConv (newConversationId db) (completeConversation _ now _) = _
    rw [lookupConv_complete, hc2]
    rfl

/-- Inbound message used by the C1 witness. -/
def msgTrigger : InboundMsg :=
  { fromMe := false, fromId := "51977666555@c.us", body := "info"
    pushname := "Eva" }

/-- Environment for the C1 witness: three templates, all sent. -/
def envAllSent : PipelineEnv :=
  { rateAllowed := true, rateReason := "", campaignMatch := some cmInfo
    campaignMessages := ["m1", "m2", "m3"]
    dispatchResult := { sent := 3, failed := 0, total := 3 } }

/-- C1 witness: `sent = total = 3` over three templates — the orchestrator
emits complete and the created conversation (id 1 in an empty store) ends
COMPLETED. -/
theorem dispatch_reconciliation_witness :
    BotAction.complete 1 ∈
      (ServiceMain.handleIncomingMessage envAllSent msgTrigger 0 []).1 ∧
    ∃ c, lookupConv 1
        (ServiceMain.handleIncomingMessage envAllSent msgTrigger 0 []).2 =
          some c ∧
      c.status = ConvStatus.COMPLETED :=
  (dispatch_reconciliation envAllSent msgTrigger 0 [] rfl (by decide)
    (by decide) rfl rfl cmInfo rfl (by decide) rfl rfl).1 rfl

/-- Inbound message used by the C9 counterexample. -/
def msgDeny : InboundMsg :=
  { fromMe := false, fromId := "51911222333@c.us", body := "hola"
    pushname := "Max" }

/-- Environment in which the rate limiter denies with a reason that is not
in the static mapping of either variant. -/
def envDeny : PipelineEnv :=
  { rateAllowed := false, rateReason := "RATE_LIMIT_WEEK"
    campaignMatch := none, campaignMessages := []
    dispatchResult := { sent := 0, failed := 0, total := 0 } }

/-- C9 counterexample: for the unmapped deny reason "RATE_LIMIT_WEEK"
(absent from both variants' mappings, as the `ServiceAlt` map shows by
returning none), the whatsapp.service.js pipeline still replies with the
generic fallback message — contradicting the claim that a deny reason
absent from the mapping produces no reply at all. -/
theorem rate_deny_unmapped_reply_counterexample :
    ServiceMain.getRateLimitMessage "RATE_LIMIT_WEEK" =
      "No puedes usar el bot en este momento. Contacta a soporte." ∧
    ServiceAlt.getRateLimitMessage "RATE_LIMIT_WEEK" = none ∧
    (ServiceMain.handleIncomingMessage envDeny msgDeny 0 []).1 =
      [BotAction.checkRate "51911222333@c.us",
       BotAction.reply
         "No puedes usar el bot en este momento. Contacta a soporte."] :=
  ⟨rfl, rfl, rfl⟩

/-- C9 (amended): on a rate-limit deny both variants stop before campaign
matching with the store unchanged (no usage record, no conversation, no
dispatch).  The whatsapp.service.js variant always replies — an unmapped
deny reason receives the generic fallback message — while the revised
variant never replies on deny; its (uncalled) `getRateLimitMessage` maps
any reason outside the two BLOCKED ones to none rather than an error.  No
other stop condition produces a reply in either variant. -/
theorem rate_deny_reply_behavior :
    (∀ (env : PipelineEnv) (msg : InboundMsg) (now : Nat) (db : DB),
      msg.fromMe = false → containsSub msg.fromId "@g.us" = false →
      ¬ jsTrim msg.body = "" → getActiveConversation msg.fromId db = none →
      env.rateAllowed = false →
      ServiceMain.handleIncomingMessage env msg now db =
        ([BotAction.checkRate msg.fromId,
          BotAction.reply (ServiceMain.getRateLimitMessage env.rateReason)],
         db) ∧
      ServiceAlt.handleIncomingMessage env msg now db =
        ([BotAction.checkRate msg.fromId], db)) ∧
    (∀ r, r ≠ "BLOCKED_TEMPORARY" → r ≠ "BLOCKED_PERMANENT" →
      ServiceAlt.getRateLimitMessage r = none) ∧
    (∀ (env : PipelineEnv) (msg : InboundMsg) (now : Nat) (db : DB)
      (t : String), env.rateAllowed = true →
      BotAction.reply t ∉ (ServiceMain.handleIncomingMessage env msg now db).1) ∧
    (∀ (env : PipelineEnv) (msg : InboundMsg) (now : Nat) (db : DB)
      (t : String),
      BotAction.reply t ∉ (ServiceAlt.handleIncomingMessage env msg now db).1) := by
  refine ⟨?_, ?_, ?_, ?_⟩
  · intro env msg now db h1 h2 h3 h4 h5
    constructor
    · unfold ServiceMain.handleIncomingMessage
      simp [h1, h2, h3, h4, h5]
    · unfold ServiceAlt.handleIncomingMessage
      simp [h1, h2, h3, h4, h5]
  · intro r hr1 hr2
    unfold ServiceAlt.getRateLimitMessage
    rw [if_neg hr1, if_neg hr2]
  · intro env msg now db t h
    by_cases hfm : msg.fromMe = true
    · simp [ServiceMain.handleIncomingMessage, hfm]
    · by_cases hg : containsSub msg.fromId "@g.us" = true
      · simp [ServiceMain.handleIncomingMessage, hfm, hg]
      · by_cases hb : jsTrim msg.body = ""
        · simp [ServiceMain.handleIncomingMessage, hfm, hg, hb]
        · cases hact : getActiveConversation msg.fromId db with
          | some c => simp [ServiceMain.handleIncomingMessage, hfm, hg, hb, hact]
          | none =>
            rw [handleMain_allowed env msg now db (by simpa using hfm)
              (by simpa using hg) hb hact h]
            simp only [List.mem_cons, not_or]
            refine ⟨by simp, ?_⟩
            cases hcm : env.campaignMatch with
            | none => simp [processAfterRateLimit, hcm]
            | some cm =>
              by_cases hL : env.campaignMessages.length = 0
              · simp [processAfterRateLimit, hcm, hL]
              · by_cases hS : env.dispatchResult.sent =
                    env.campaignMessages.length
                · simp [processAfterRateLimit, hcm, hL, hS]
                · by_cases hF : env.dispatchResult.failed =
                      env.campaignMessages.length
                  · simp [processAfterRateLimit, hcm, hL, hS, hF]
                  · simp [processAfterRateLimit, hcm, hL, hS, hF]
  · intro env msg now db t
    by_cases hfm : msg.fromMe = true
    · simp [ServiceAlt.handleIncomingMessage, hfm]
    · by_cases hg : containsSub msg.fromId "@g.us" = true
      · simp [ServiceAlt.handleIncomingMessage, hfm, hg]
      · by_cases hb : jsTrim msg.body = ""
        · simp [ServiceAlt.handleIncomingMessage, hfm, hg, hb]
        · cases hact : getActiveConversation msg.fromId db with
          | some c => simp [ServiceAlt.handleIncomingMessage, hfm, hg, hb, hact]
          | none =>
            by_cases hra : env.rateAllowed = true
            · rw [handleAlt_allowed env msg now db (by simpa using hfm)
                (by simpa using hg) hb hact hra]
              simp only [List.mem_cons, not_or]
              refine ⟨by simp, ?_⟩
              cases hcm : env.campaignMatch with
              | none => simp [processAfterRateLimit, hcm]
              | some cm =>
                by_cases hL : env.campaignMessages.length = 0
                · simp [processAfterRateLimit, hcm, hL]
                · by_cases hS : env.dispatchResult.sent =
                      env.campaignMessages.length
                  · simp [processAfterRateLimit, hcm, hL, hS]
                  · by_cases hF : env.dispatchResult.failed =
                        env.campaignMessages.length
                    · simp [processAfterRateLimit, hcm, hL, hS, hF]
                    · simp [processAfterRateLimit, hcm, hL, hS, hF]
            · simp [ServiceAlt.handleIncomingMessage, hfm, hg, hb, hact, hra]

/-- Inbound message used by the C9 witness. -/
def msgDenied : InboundMsg :=
  { fromMe := false, fromId := "51900111222@c.us", body := "hola"
    pushname := "Pia" }

/-- Environment denying with the mapped-in-Main, unmapped-in-Alt reason
"RATE_LIMIT_HOUR". -/
def envDenyHour : PipelineEnv :=
  { rateAllowed := false, rateReason := "RATE_LIMIT_HOUR"
    campaignMatch := none, campaignMessages := []
    dispatchResult := { sent := 0, failed := 0, total := 0 } }

/-- C9 witness for the amended claim: a denied message stops both pipelines
before campaign matching; the main variant replies, the revised one does
not, and the revised mapping yields none for "RATE_LIMIT_DAY". -/
theorem rate_deny_reply_behavior_witness :
    ServiceMain.handleIncomingMessage envDenyHour msgDenied 0 [] =
      ([BotAction.checkRate "51900111222@c.us",
        BotAction.reply (ServiceMain.getRateLimitMessage "RATE_LIMIT_HOUR")],
       []) ∧
    ServiceAlt.handleIncomingMessage envDenyHour msgDenied 0 [] =
      ([BotAction.checkRate "51900111222@c.us"], []) ∧
    ServiceAlt.getRateLimitMessage "RATE_LIMIT_DAY" = none :=
  ⟨(rate_deny_reply_behavior.1 envDenyHour msgDenied 0 [] rfl (by decide)
      (by decide) rfl rfl).1,
   (rate_deny_reply_behavior.1 envDenyHour msgDenied 0 [] rfl (by decide)
      (by decide) rfl rfl).2,
   rate_deny_reply_behavior.2.1 "RATE_LIMIT_DAY" (by decide) (by decide)⟩
